import Mathlib

/-!
Verification of the Moonshot DCA bot's sentiment-weighted allocation and
execution engine, shallowly embedded from the Go source.

Decimal arithmetic (github.com/shopspring/decimal) is modelled by ℚ.
Every division performed by the multiplier and buffer calculators divides an
integer by 20 or by 25, which is exact within the library's 16-digit
division precision, so the ℚ model is exact for them; for the order-size
division (amount / price) ℚ models the ideal quotient, and no claim here
depends on the library's rounding of that quotient.

Go `int` (64-bit, wrapping) is modelled by unbounded `Int`; the two agree
on every input for which no intermediate subtraction overflows int64, which
covers all of [0,100] and, out of range, every value down to
MinInt64 + 26 for the multiplier (below that Go's `25 - value` wraps) and
the whole int64 range for the buffer (its extreme branches do no
arithmetic). Theorems about out-of-range inputs carry these bounds.

Timestamps and the numeric parts of formatted log/reason strings are not
modelled (they carry no decision logic); error strings keep fixed prefixes.
-/

namespace Moonshot

/-- Go `types.FearGreedIndex` (timestamp omitted). -/
structure FearGreedIndex where
  Value : Int
  Classification : String
  Multiplier : ℚ
deriving DecidableEq

/-- Go `types.Portfolio`, the fields the engine reads (assets map and
timestamp omitted: the planner and executor read only `USDCBalance`). -/
structure Portfolio where
  USDCBalance : ℚ
  TotalValue : ℚ
deriving DecidableEq

/-- Go `types.BotConfig`, the fields the planner reads. -/
structure BotConfig where
  BTCAllocation : ℚ
  ETHAllocation : ℚ
  WeeklyBaseInvestment : ℚ
deriving DecidableEq

/-- Go `types.InvestmentDecision` (timestamp omitted). -/
structure InvestmentDecision where
  Asset : String
  Action : String
  Amount : ℚ
  Price : ℚ
  Reason : String
deriving DecidableEq

/-- The venue's response to an order submission: Go
`orders.CreateOrderResponse` restricted to the fields `executeBuyOrder`
reads (`Success`, `OrderId`, `FailureReason`). -/
structure OrderResp where
  Success : Bool
  OrderId : String
  FailureReason : String
deriving DecidableEq

/-- Go `services.FNGService.calculateMultiplier` (fng_service.go).
Each branch mirrors one `case` of the Go `switch`; `decimal.NewFromInt(a).Div(decimal.NewFromInt(b))`
becomes the exact quotient `(a : ℚ) / b`. -/
def calculateMultiplier (value : Int) : ℚ :=
  if value ≤ 20 then
    -- Extreme Fear: linear interpolation 0 -> 2.0, 25 -> 1.5
    let r : ℚ := ((25 - value : Int) : ℚ) / 25
    1.5 + r * 0.5
  else if value ≤ 40 then
    -- Fear: linear interpolation 25 -> 1.5, 45 -> 1.2
    let r : ℚ := ((45 - value : Int) : ℚ) / 20
    1.2 + r * 0.3
  else if value ≤ 60 then
    -- Neutral
    1.0
  else if value ≤ 80 then
    -- Greed: linear interpolation 55 -> 1.0, 75 -> 0.7
    let r : ℚ := ((75 - value : Int) : ℚ) / 20
    0.7 + r * 0.3
  else
    -- Extreme Greed: linear interpolation 75 -> 0.7, 100 -> 0.5
    let r : ℚ := ((100 - value : Int) : ℚ) / 25
    0.5 + r * 0.2

/-- Go `bot.DCABot.calculateDynamicBuffer` (dca_bot.go). -/
def calculateDynamicBuffer (fngValue : Int) : ℚ :=
  if fngValue ≤ 20 then
    -- Extreme Fear: no buffer
    0
  else if fngValue ≤ 40 then
    -- Fear: small buffer 5% to 10%
    let r : ℚ := ((40 - fngValue : Int) : ℚ) / 20
    0.05 + r * 0.05
  else if fngValue ≤ 60 then
    -- Neutral: normal buffer 15% to 20%
    let r : ℚ := ((60 - fngValue : Int) : ℚ) / 20
    0.15 + r * 0.05
  else if fngValue ≤ 80 then
    -- Greed: higher buffer, capped
    0.20
  else
    -- Extreme Greed: maximum buffer, capped
    0.20

/-- The five-band piecewise formula exactly as claim C1 words it, with
two-sided band guards (to be compared against `calculateMultiplier`). -/
def multiplierClaimFormula (v : Int) : ℚ :=
  if v ≤ 20 then 1.5 + ((25 - v : Int) : ℚ) / 25 * 0.5
  else if 21 ≤ v ∧ v ≤ 40 then 1.2 + ((45 - v : Int) : ℚ) / 20 * 0.3
  else if 41 ≤ v ∧ v ≤ 60 then 1.0
  else if 61 ≤ v ∧ v ≤ 80 then 0.7 + ((75 - v : Int) : ℚ) / 20 * 0.3
  else 0.5 + ((100 - v : Int) : ℚ) / 25 * 0.2

/-- The buffer bands exactly as claim C5 words them. -/
def bufferClaimFormula (v : Int) : ℚ :=
  if v ≤ 20 then 0
  else if 21 ≤ v ∧ v ≤ 40 then 0.05 + ((40 - v : Int) : ℚ) / 20 * 0.05
  else if 41 ≤ v ∧ v ≤ 60 then 0.15 + ((60 - v : Int) : ℚ) / 20 * 0.05
  else 0.20

/-- C1: on the whole domain [0,100] the code's multiplier agrees with the
claim's five-band piecewise formula, including the stated cut points. -/
theorem calculateMultiplier_matches_claim_formula (v : Int)
    (h0 : 0 ≤ v) (h100 : v ≤ 100) :
    calculateMultiplier v = multiplierClaimFormula v := by
  unfold calculateMultiplier multiplierClaimFormula
  split_ifs <;> first | rfl | (exfalso; omega)

/-- Witness for C1 at v = 37. -/
theorem calculateMultiplier_matches_claim_formula_witness :
    calculateMultiplier 37 = multiplierClaimFormula 37 :=
  calculateMultiplier_matches_claim_formula 37 (by norm_num) (by norm_num)

/-- C2 counterexample: the code's multiplier at value 21 is 1.56, not
approximately 1.496 as the claim states (the difference is exactly 0.064,
far beyond any rounding of a three-decimal approximation). -/
theorem multiplier_at_21_is_not_1496 :
    calculateMultiplier 21 = 1.56 ∧ calculateMultiplier 21 ≠ 1.496 ∧
    calculateMultiplier 21 - 1.496 = 0.064 := by
  norm_num [calculateMultiplier]

/-- C2 amended: the spot values the code actually takes: multiplier(0) = 2.0,
multiplier(20) = 1.6, multiplier(21) = 1.56 (the jump at the 20/21 boundary
is from 1.6 down to 1.56), multiplier(50) = 1.0, multiplier(100) = 0.5. -/
theorem multiplier_spot_values :
    calculateMultiplier 0 = 2.0 ∧ calculateMultiplier 20 = 1.6 ∧
    calculateMultiplier 21 = 1.56 ∧ calculateMultiplier 50 = 1.0 ∧
    calculateMultiplier 100 = 0.5 ∧
    calculateMultiplier 21 < calculateMultiplier 20 := by
  norm_num [calculateMultiplier]

/-- C3 counterexample: neither calculator contains a range check, so both
return plain numeric results on out-of-range inputs instead of failing:
multiplier(101) = 0.492, multiplier(-1) = 2.02, buffer(101) = 0.20,
buffer(-1) = 0. -/
theorem out_of_range_inputs_return_numbers :
    calculateMultiplier 101 = 0.492 ∧ calculateMultiplier (-1) = 2.02 ∧
    calculateDynamicBuffer 101 = 0.20 ∧ calculateDynamicBuffer (-1) = 0 := by
  norm_num [calculateMultiplier, calculateDynamicBuffer]

/-- C3 amended: for int64 inputs outside [0,100] neither calculator fails
(both are total and have no range guard). The buffer returns 0 for every
negative int64 and 0.20 for every int64 above 100 (those branches do no
arithmetic, so no overflow is possible). The multiplier extends the last
band's interpolation formula for every int64 above 100 (`100 - value`
cannot overflow there) and the first band's formula for negative values
down to MinInt64 + 26; below that Go's `25 - value` wraps, so no formula
is asserted. -/
theorem out_of_range_behavior (v : Int) :
    (-(2 ^ 63) ≤ v → v < 0 → calculateDynamicBuffer v = 0) ∧
    (100 < v → v ≤ 2 ^ 63 - 1 → calculateDynamicBuffer v = 0.20) ∧
    (-(2 ^ 63) + 26 ≤ v → v < 0 →
      calculateMultiplier v = 1.5 + ((25 - v : Int) : ℚ) / 25 * 0.5) ∧
    (100 < v → v ≤ 2 ^ 63 - 1 →
      calculateMultiplier v = 0.5 + ((100 - v : Int) : ℚ) / 25 * 0.2) := by
  refine ⟨?_, ?_, ?_, ?_⟩
  · intro hlo h
    unfold calculateDynamicBuffer
    rw [if_pos (by omega)]
  · intro h hhi
    unfold calculateDynamicBuffer
    rw [if_neg (by omega), if_neg (by omega), if_neg (by omega), if_neg (by omega)]
  · intro hlo h
    unfold calculateMultiplier
    rw [if_pos (by omega)]
  · intro h hhi
    unfold calculateMultiplier
    rw [if_neg (by omega), if_neg (by omega), if_neg (by omega), if_neg (by omega)]

/-- Witness for C3's amended theorem at v = -1 and v = 101. -/
theorem out_of_range_behavior_witness :
    calculateDynamicBuffer (-1) = 0 ∧
    calculateDynamicBuffer 101 = 0.20 ∧
    calculateMultiplier (-1) = 1.5 + ((25 - (-1) : Int) : ℚ) / 25 * 0.5 ∧
    calculateMultiplier 101 = 0.5 + ((100 - 101 : Int) : ℚ) / 25 * 0.2 := by
  obtain ⟨h1, _, _, _⟩ := out_of_range_behavior (-1)
  obtain ⟨_, h2, _, _⟩ := out_of_range_behavior 101
  obtain ⟨_, _, h3, _⟩ := out_of_range_behavior (-1)
  obtain ⟨_, _, _, h4⟩ := out_of_range_behavior 101
  exact ⟨h1 (by norm_num) (by norm_num), h2 (by norm_num) (by norm_num),
    h3 (by norm_num) (by norm_num), h4 (by norm_num) (by norm_num)⟩

/-- C4 counterexample: the multiplier increases across the 80/81 boundary:
multiplier(80) = 0.625 but multiplier(81) = 0.652, so it is not
non-increasing on [0,100]. -/
theorem multiplier_increases_at_80_81 :
    calculateMultiplier 80 = 0.625 ∧ calculateMultiplier 81 = 0.652 ∧
    calculateMultiplier 80 < calculateMultiplier 81 := by
  norm_num [calculateMultiplier]

/-- C4 amended: on [0,100] the multiplier is strictly positive; it is
non-increasing on [0,80] and on [81,100], and the single violation of
monotonicity is the upward jump from 0.625 at 80 to 0.652 at 81. -/
theorem multiplier_positive_and_piecewise_nonincreasing :
    (∀ v : Int, 0 ≤ v → v ≤ 100 → 0 < calculateMultiplier v) ∧
    (∀ v1 v2 : Int, 0 ≤ v1 → v1 ≤ v2 → v2 ≤ 80 →
      calculateMultiplier v2 ≤ calculateMultiplier v1) ∧
    (∀ v1 v2 : Int, 81 ≤ v1 → v1 ≤ v2 → v2 ≤ 100 →
      calculateMultiplier v2 ≤ calculateMultiplier v1) ∧
    calculateMultiplier 80 < calculateMultiplier 81 := by
  refine ⟨?_, ?_, ?_, by norm_num [calculateMultiplier]⟩
  · intro v h0 h100
    unfold calculateMultiplier
    split_ifs <;>
      first
      | (simp only [not_le] at *; qify at *; linarith)
      | (qify at *; linarith)
  · intro v1 v2 h0 h12 h80
    unfold calculateMultiplier
    split_ifs <;>
      first
      | (exfalso; omega)
      | (simp only [not_le] at *; qify at *; linarith)
      | (qify at *; linarith)
  · intro v1 v2 h81 h12 h100
    unfold calculateMultiplier
    split_ifs <;>
      first
      | (exfalso; omega)
      | (simp only [not_le] at *; qify at *; linarith)
      | (qify at *; linarith)

/-- Witness for C4's amended theorem at concrete inputs. -/
theorem multiplier_positive_and_piecewise_nonincreasing_witness :
    0 < calculateMultiplier 37 ∧
    calculateMultiplier 55 ≤ calculateMultiplier 12 ∧
    calculateMultiplier 99 ≤ calculateMultiplier 82 ∧
    calculateMultiplier 80 < calculateMultiplier 81 := by
  obtain ⟨hp, hm1, hm2, hj⟩ := multiplier_positive_and_piecewise_nonincreasing
  exact ⟨hp 37 (by norm_num) (by norm_num),
    hm1 12 55 (by norm_num) (by norm_num) (by norm_num),
    hm2 82 99 (by norm_num) (by norm_num) (by norm_num), hj⟩

/-- C5: on [0,100] the code's buffer agrees band-by-band with the claim's
formulas, stays within [0, 0.20], and takes the stated values at 0, 61, 100. -/
theorem calculateDynamicBuffer_matches_claim (v : Int)
    (h0 : 0 ≤ v) (h100 : v ≤ 100) :
    calculateDynamicBuffer v = bufferClaimFormula v ∧
    0 ≤ calculateDynamicBuffer v ∧ calculateDynamicBuffer v ≤ 0.20 ∧
    calculateDynamicBuffer 0 = 0 ∧ calculateDynamicBuffer 61 = 0.20 ∧
    calculateDynamicBuffer 100 = 0.20 := by
  refine ⟨?_, ?_, ?_, by norm_num [calculateDynamicBuffer],
    by norm_num [calculateDynamicBuffer], by norm_num [calculateDynamicBuffer]⟩
  · unfold calculateDynamicBuffer bufferClaimFormula
    split_ifs <;> first | rfl | (exfalso; omega)
  · unfold calculateDynamicBuffer
    split_ifs <;>
      first
      | (simp only [not_le] at *; qify at *; linarith)
      | (qify at *; linarith)
      | norm_num
  · unfold calculateDynamicBuffer
    split_ifs <;>
      first
      | (simp only [not_le] at *; qify at *; linarith)
      | (qify at *; linarith)
      | norm_num

/-- Witness for C5 at v = 33. -/
theorem calculateDynamicBuffer_matches_claim_witness :
    calculateDynamicBuffer 33 = bufferClaimFormula 33 ∧
    0 ≤ calculateDynamicBuffer 33 ∧ calculateDynamicBuffer 33 ≤ 0.20 ∧
    calculateDynamicBuffer 0 = 0 ∧ calculateDynamicBuffer 61 = 0.20 ∧
    calculateDynamicBuffer 100 = 0.20 :=
  calculateDynamicBuffer_matches_claim 33 (by norm_num) (by norm_num)

/-- The rationale attached to every decision. Go formats
"DCA with F&G multiplier %s (Index: %d)"; the interpolated numbers are not
modelled, only the fixed text. -/
def decisionReason : String := "DCA with F&G multiplier"

/-- Go `bot.DCABot.calculateBuyDecisions` (dca_bot.go). `getAssetPrice`
stands for the venue price lookup `DCABot.getAssetPrice`; the Go function
returns `(decisions, nil)` on every path, so both returns are `Except.ok`.
The Go early return on `investmentAmount ≤ 0` becomes the if-else. -/
def calculateBuyDecisions (cfg : BotConfig) (pf : Portfolio)
    (fngIndex : FearGreedIndex) (getAssetPrice : String → Except String ℚ) :
    Except String (List InvestmentDecision) :=
  let availableUSDC := pf.USDCBalance
  let baseInvestment := cfg.WeeklyBaseInvestment
  let investmentAmount := baseInvestment * fngIndex.Multiplier
  let dynamicBuffer := calculateDynamicBuffer fngIndex.Value
  let maxInvestment := availableUSDC * (1 - dynamicBuffer)
  let investmentAmount :=
    if investmentAmount > maxInvestment then maxInvestment else investmentAmount
  if investmentAmount ≤ 0 then
    Except.ok []
  else
    let btcInvestment := investmentAmount * cfg.BTCAllocation / 100
    let ethInvestment := investmentAmount * cfg.ETHAllocation / 100
    let btcDecisions : List InvestmentDecision :=
      match getAssetPrice "BTC" with
      | Except.ok btcPrice =>
        if btcInvestment > 0 then
          [{ Asset := "BTC", Action := "buy", Amount := btcInvestment,
             Price := btcPrice, Reason := decisionReason }]
        else []
      | Except.error _ => []
    let ethDecisions : List InvestmentDecision :=
      match getAssetPrice "ETH" with
      | Except.ok ethPrice =>
        if ethInvestment > 0 then
          [{ Asset := "ETH", Action := "buy", Amount := ethInvestment,
             Price := ethPrice, Reason := decisionReason }]
        else []
      | Except.error _ => []
    Except.ok (btcDecisions ++ ethDecisions)

/-- Go rewrites `investmentAmount` to `maxInvestment` exactly when it
exceeds it: that conditional is the minimum of the two amounts. -/
lemma ifGT_eq_min (a b : ℚ) : (if a > b then b else a) = min a b := by
  rw [min_def]
  split_ifs <;> linarith

/-- The planner returns the empty plan (with a nil error) whenever the
capped investable amount is not positive. -/
lemma planner_empty_core (cfg : BotConfig) (pf : Portfolio)
    (fngIndex : FearGreedIndex) (price : String → Except String ℚ)
    (h : min (cfg.WeeklyBaseInvestment * fngIndex.Multiplier)
        (pf.USDCBalance * (1 - calculateDynamicBuffer fngIndex.Value)) ≤ 0) :
    calculateBuyDecisions cfg pf fngIndex price = Except.ok [] := by
  simp only [calculateBuyDecisions, ifGT_eq_min]
  rw [if_pos h]

/-- C6: the planner caps base × multiplier at cash × (1 − buffer) — the
investable amount is the minimum of the two — and whenever that minimum is
not positive (in particular whenever the cash balance is 0) it returns the
empty decision list and no error. -/
theorem planner_empty_when_no_funds (cfg : BotConfig) (pf : Portfolio)
    (fngIndex : FearGreedIndex) (price : String → Except String ℚ)
    (hm : fngIndex.Multiplier = calculateMultiplier fngIndex.Value) :
    (min (cfg.WeeklyBaseInvestment * calculateMultiplier fngIndex.Value)
        (pf.USDCBalance * (1 - calculateDynamicBuffer fngIndex.Value)) ≤ 0 →
      calculateBuyDecisions cfg pf fngIndex price = Except.ok []) ∧
    (pf.USDCBalance = 0 →
      calculateBuyDecisions cfg pf fngIndex price = Except.ok []) := by
  constructor
  · intro h
    exact planner_empty_core cfg pf fngIndex price (by rw [hm]; exact h)
  · intro h0
    apply planner_empty_core
    rw [h0]
    exact le_trans (min_le_right _ _) (by rw [zero_mul])

/-- Witness for C6: zero cash balance yields the empty plan. -/
theorem planner_empty_when_no_funds_witness :
    calculateBuyDecisions ⟨80, 20, 100⟩ ⟨0, 0⟩ ⟨50, "Neutral", 1⟩
      (fun _ => Except.error "price lookup failed") = Except.ok [] :=
  (planner_empty_when_no_funds ⟨80, 20, 100⟩ ⟨0, 0⟩ ⟨50, "Neutral", 1⟩
    (fun _ => Except.error "price lookup failed")
    (by norm_num [calculateMultiplier])).2 rfl

/-- C7: with weights summing to 100 and a positive investable amount, the
planner emits one decision per asset exactly when that asset's price lookup
succeeds, in the fixed order BTC then ETH; a failed lookup silently skips
only that asset (no error, the other asset's weight is not renormalized),
and when neither is skipped the two cash amounts are the configured
weight split of the investable amount and sum to it exactly. -/
theorem planner_per_asset_emission (cfg : BotConfig) (pf : Portfolio)
    (fngIndex : FearGreedIndex) (price : String → Except String ℚ)
    (investable btcAmt ethAmt : ℚ)
    (hm : fngIndex.Multiplier = calculateMultiplier fngIndex.Value)
    (hinv : investable = min (cfg.WeeklyBaseInvestment * calculateMultiplier fngIndex.Value)
        (pf.USDCBalance * (1 - calculateDynamicBuffer fngIndex.Value)))
    (hb : btcAmt = investable * cfg.BTCAllocation / 100)
    (he : ethAmt = investable * cfg.ETHAllocation / 100)
    (hsum : cfg.BTCAllocation + cfg.ETHAllocation = 100)
    (hpos : 0 < investable) :
    (∀ pb pe, price "BTC" = Except.ok pb → price "ETH" = Except.ok pe →
      0 < btcAmt → 0 < ethAmt →
      calculateBuyDecisions cfg pf fngIndex price = Except.ok
        [{ Asset := "BTC", Action := "buy", Amount := btcAmt,
           Price := pb, Reason := decisionReason },
         { Asset := "ETH", Action := "buy", Amount := ethAmt,
           Price := pe, Reason := decisionReason }] ∧
      btcAmt + ethAmt = investable) ∧
    (∀ e pe, price "BTC" = Except.error e → price "ETH" = Except.ok pe →
      0 < ethAmt →
      calculateBuyDecisions cfg pf fngIndex price = Except.ok
        [{ Asset := "ETH", Action := "buy", Amount := ethAmt,
           Price := pe, Reason := decisionReason }]) ∧
    (∀ pb e, price "BTC" = Except.ok pb → price "ETH" = Except.error e →
      0 < btcAmt →
      calculateBuyDecisions cfg pf fngIndex price = Except.ok
        [{ Asset := "BTC", Action := "buy", Amount := btcAmt,
           Price := pb, Reason := decisionReason }]) ∧
    (∀ e1 e2, price "BTC" = Except.error e1 → price "ETH" = Except.error e2 →
      calculateBuyDecisions cfg pf fngIndex price = Except.ok []) := by
  have hfold : calculateBuyDecisions cfg pf fngIndex price = Except.ok
      ((match price "BTC" with
        | Except.ok pb =>
          if btcAmt > 0 then
            [{ Asset := "BTC", Action := "buy", Amount := btcAmt,
               Price := pb, Reason := decisionReason }]
          else []
        | Except.error _ => []) ++
       (match price "ETH" with
        | Except.ok pe =>
          if ethAmt > 0 then
            [{ Asset := "ETH", Action := "buy", Amount := ethAmt,
               Price := pe, Reason := decisionReason }]
          else []
        | Except.error _ => [])) := by
    simp only [calculateBuyDecisions, ifGT_eq_min, hm]
    rw [← hinv, ← hb, ← he, if_neg (not_le.mpr hpos)]
  refine ⟨?_, ?_, ?_, ?_⟩
  · intro pb pe hpb hpe hbp hep
    constructor
    · rw [hfold]
      simp only [hpb, hpe]
      rw [if_pos hbp, if_pos hep]
      rfl
    · rw [hb, he]
      linear_combination (investable / 100) * hsum
  · intro e pe hpb hpe hep
    rw [hfold]
    simp only [hpb, hpe]
    rw [if_pos hep]
    rfl
  · intro pb e hpb hpe hbp
    rw [hfold]
    simp only [hpb, hpe]
    rw [if_pos hbp]
    rfl
  · intro e1 e2 hpb hpe
    rw [hfold]
    simp only [hpb, hpe]
    rfl

/-- Witness for C7: cash 1000, base 100, weights 80/20, sentiment 50,
both prices available at 100: decisions split 80/20 and sum to 100. -/
theorem planner_per_asset_emission_witness :
    calculateBuyDecisions ⟨80, 20, 100⟩ ⟨1000, 1000⟩ ⟨50, "Neutral", 1⟩
      (fun _ => Except.ok 100) = Except.ok
      [{ Asset := "BTC", Action := "buy", Amount := 80,
         Price := 100, Reason := decisionReason },
       { Asset := "ETH", Action := "buy", Amount := 20,
         Price := 100, Reason := decisionReason }] ∧
    (80 : ℚ) + 20 = 100 := by
  have h := planner_per_asset_emission ⟨80, 20, 100⟩ ⟨1000, 1000⟩
    ⟨50, "Neutral", 1⟩ (fun _ => Except.ok 100) 100 80 20
    (by norm_num [calculateMultiplier])
    (by norm_num [calculateMultiplier, calculateDynamicBuffer, min_def])
    (by norm_num) (by norm_num) (by norm_num) (by norm_num)
  exact h.1 100 100 rfl rfl (by norm_num) (by norm_num)

/-- Go `bot.DCABot.executeBuyOrder` (dca_bot.go). `placeOrder` stands for
`CoinbaseService.PlaceOrder` called with product `Asset-USDC`, side BUY and
a market order of the given size; the numbers Go formats into its error
strings are not modelled, only the fixed message prefixes. The liquidity
check reads the snapshot balance `pf.USDCBalance` passed in — the Go code
never re-fetches or decrements it during a run. -/
def executeBuyOrder (pf : Portfolio)
    (placeOrder : String → ℚ → Except String OrderResp)
    (decision : InvestmentDecision) : Except String Unit :=
  let productID := decision.Asset ++ "-USDC"
  if pf.USDCBalance < decision.Amount then
    Except.error "insufficient USDC balance"
  else
    let size := decision.Amount / decision.Price
    match placeOrder productID size with
    | Except.error _ => Except.error "failed to place order"
    | Except.ok orderResp =>
      if orderResp.Success then Except.ok ()
      else Except.error ("order failed: " ++ orderResp.FailureReason)

/-- The loop-local state of Go `bot.DCABot.Execute`: the running success
flag and error string of the `ExecutionResult` under construction, the
`totalInvested` accumulator and the two order counters. -/
structure ExecState where
  success : Bool
  errMsg : String
  totalInvested : ℚ
  successfulOrders : Nat
  failedOrders : Nat
deriving DecidableEq

/-- The state at the top of Go `Execute`'s decision loop. -/
def initialExecState : ExecState :=
  { success := true, errMsg := "", totalInvested := 0,
    successfulOrders := 0, failedOrders := 0 }

/-- One iteration of the decision loop in Go `bot.DCABot.Execute`. -/
def execStep (pf : Portfolio)
    (placeOrder : String → ℚ → Except String OrderResp)
    (st : ExecState) (decision : InvestmentDecision) : ExecState :=
  if decision.Action = "buy" then
    match executeBuyOrder pf placeOrder decision with
    | Except.error e =>
      { st with success := false, errMsg := e,
                failedOrders := st.failedOrders + 1 }
    | Except.ok _ =>
      { st with totalInvested := st.totalInvested + decision.Amount,
                successfulOrders := st.successfulOrders + 1 }
  else st

/-- The decision loop of Go `bot.DCABot.Execute`, run sequentially in
order over the planned decisions with the one portfolio snapshot. -/
def executeDecisions (pf : Portfolio)
    (placeOrder : String → ℚ → Except String OrderResp)
    (decisions : List InvestmentDecision) : ExecState :=
  decisions.foldl (execStep pf placeOrder) initialExecState

/-- Whether `executeBuyOrder` succeeds on a decision. -/
def decisionSucceeds (pf : Portfolio)
    (placeOrder : String → ℚ → Except String OrderResp)
    (decision : InvestmentDecision) : Bool :=
  match executeBuyOrder pf placeOrder decision with
  | Except.ok _ => true
  | Except.error _ => false

/-- Go `types.ExecutionResult`, the fields Execute fills (portfolio, FNG
index and timestamp omitted; `TotalSold` is always zero — no selling). -/
structure ExecutionResult where
  Success : Bool
  Decisions : List InvestmentDecision
  TotalInvested : ℚ
  TotalSold : ℚ
  Error : String
deriving DecidableEq

/-- Go `bot.DCABot.Execute` (dca_bot.go): fetch the portfolio, fetch the
FNG index, plan the buys, then run the decision loop and aggregate. The
three service calls are oracle arguments. -/
def Execute (getPortfolio : Except String Portfolio)
    (getFearGreedIndex : Except String FearGreedIndex)
    (cfg : BotConfig) (getAssetPrice : String → Except String ℚ)
    (placeOrder : String → ℚ → Except String OrderResp) :
    Except String ExecutionResult :=
  match getPortfolio with
  | Except.error e => Except.error ("failed to get portfolio: " ++ e)
  | Except.ok pf =>
    match getFearGreedIndex with
    | Except.error e => Except.error ("failed to get FNG index: " ++ e)
    | Except.ok fngIndex =>
      match calculateBuyDecisions cfg pf fngIndex getAssetPrice with
      | Except.error e =>
        Except.error ("failed to calculate investment decisions: " ++ e)
      | Except.ok decisions =>
        let st := executeDecisions pf placeOrder decisions
        Except.ok { Success := st.success, Decisions := decisions,
                    TotalInvested := st.totalInvested, TotalSold := 0,
                    Error := st.errMsg }

/-- Complete characterization of the decision loop from an arbitrary
starting state: the success flag survives exactly when every buy decision
succeeds, `totalInvested` accumulates the amounts of the succeeded
decisions only, and the counters count successes and failures. -/
lemma executeDecisions_foldl (pf : Portfolio)
    (po : String → ℚ → Except String OrderResp) :
    ∀ (ds : List InvestmentDecision) (st : ExecState),
      (∀ d ∈ ds, d.Action = "buy") →
      (List.foldl (execStep pf po) st ds).success =
        (st.success && ds.all (fun d => decisionSucceeds pf po d)) ∧
      (List.foldl (execStep pf po) st ds).totalInvested =
        st.totalInvested +
          ((ds.filter (fun d => decisionSucceeds pf po d)).map
            (fun d => d.Amount)).sum ∧
      (List.foldl (execStep pf po) st ds).successfulOrders =
        st.successfulOrders +
          (ds.filter (fun d => decisionSucceeds pf po d)).length ∧
      (List.foldl (execStep pf po) st ds).failedOrders =
        st.failedOrders +
          (ds.filter (fun d => ! decisionSucceeds pf po d)).length := by
  intro ds
  induction ds with
  | nil => intro st h; simp
  | cons d rest ih =>
    intro st h
    have hd : d.Action = "buy" := h d (List.mem_cons_self d rest)
    have hrest : ∀ x ∈ rest, x.Action = "buy" :=
      fun x hx => h x (List.mem_cons_of_mem d hx)
    rcases hcase : executeBuyOrder pf po d with e | u
    · have hsucc : decisionSucceeds pf po d = false := by
        simp [decisionSucceeds, hcase]
      have hstep : execStep pf po st d =
          { st with success := false, errMsg := e,
                    failedOrders := st.failedOrders + 1 } := by
        simp only [execStep, hcase]
        rw [if_pos hd]
      rw [List.foldl_cons, hstep]
      obtain ⟨h1, h2, h3, h4⟩ :=
        ih { st with success := false, errMsg := e,
                     failedOrders := st.failedOrders + 1 } hrest
      refine ⟨?_, ?_, ?_, ?_⟩
      · rw [h1]
        simp [hsucc]
      · rw [h2]
        simp [hsucc]
      · rw [h3]
        simp [hsucc]
      · rw [h4]
        simp [hsucc, List.filter_cons]
        omega
    · have hsucc : decisionSucceeds pf po d = true := by
        simp [decisionSucceeds, hcase]
      have hstep : execStep pf po st d =
          { st with totalInvested := st.totalInvested + d.Amount,
                    successfulOrders := st.successfulOrders + 1 } := by
        simp only [execStep, hcase]
        rw [if_pos hd]
      rw [List.foldl_cons, hstep]
      obtain ⟨h1, h2, h3, h4⟩ :=
        ih { st with totalInvested := st.totalInvested + d.Amount,
                     successfulOrders := st.successfulOrders + 1 } hrest
      refine ⟨?_, ?_, ?_, ?_⟩
      · rw [h1]
        simp [hsucc]
      · rw [h2]
        simp [hsucc, List.filter_cons]
        ring
      · rw [h3]
        simp [hsucc, List.filter_cons]
        omega
      · rw [h4]
        simp [hsucc]

/-- C8: for a sequence of buy decisions, the loop's success flag ends false
iff at least one decision's execution failed, totalInvested sums the
amounts of the succeeded decisions only, and a failure does not stop the
loop: with two decisions of which exactly the second fails, both are
attempted (one success and one failure counted), success is false and
totalInvested is the first amount alone. -/
theorem executor_aggregation (pf : Portfolio)
    (po : String → ℚ → Except String OrderResp)
    (ds : List InvestmentDecision) (hbuy : ∀ d ∈ ds, d.Action = "buy") :
    ((executeDecisions pf po ds).success = false ↔
      ∃ d ∈ ds, decisionSucceeds pf po d = false) ∧
    (executeDecisions pf po ds).totalInvested =
      ((ds.filter (fun d => decisionSucceeds pf po d)).map
        (fun d => d.Amount)).sum ∧
    (∀ d1 d2, ds = [d1, d2] → decisionSucceeds pf po d1 = true →
      decisionSucceeds pf po d2 = false →
      (executeDecisions pf po ds).success = false ∧
      (executeDecisions pf po ds).totalInvested = d1.Amount ∧
      (executeDecisions pf po ds).successfulOrders = 1 ∧
      (executeDecisions pf po ds).failedOrders = 1) := by
  unfold executeDecisions
  obtain ⟨h1, h2, h3, h4⟩ := executeDecisions_foldl pf po ds initialExecState hbuy
  refine ⟨?_, ?_, ?_⟩
  · rw [h1]
    simp only [initialExecState, Bool.true_and]
    rw [Bool.eq_false_iff, ne_eq, List.all_eq_true]
    push_neg
    simp [Bool.not_eq_true]
  · rw [h2]
    simp [initialExecState]
  · intro d1 d2 hds hs1 hs2
    subst hds
    refine ⟨?_, ?_, ?_, ?_⟩
    · rw [h1]
      simp [initialExecState, hs1, hs2]
    · rw [h2]
      simp [initialExecState, List.filter_cons, hs1, hs2]
    · rw [h3]
      simp [initialExecState, List.filter_cons, hs1, hs2]
    · rw [h4]
      simp [initialExecState, List.filter_cons, hs1, hs2]

/-- Witness for C8: snapshot cash 50; a 10-unit BTC buy succeeds at the
venue, then a 1000-unit ETH buy fails the liquidity check: both decisions
are counted, success is false and only the first amount is invested. -/
theorem executor_aggregation_witness :
    (executeDecisions ⟨50, 50⟩ (fun _ _ => Except.ok ⟨true, "order-1", ""⟩)
      [⟨"BTC", "buy", 10, 100, "r"⟩, ⟨"ETH", "buy", 1000, 100, "r"⟩]).success = false ∧
    (executeDecisions ⟨50, 50⟩ (fun _ _ => Except.ok ⟨true, "order-1", ""⟩)
      [⟨"BTC", "buy", 10, 100, "r"⟩, ⟨"ETH", "buy", 1000, 100, "r"⟩]).totalInvested = 10 ∧
    (executeDecisions ⟨50, 50⟩ (fun _ _ => Except.ok ⟨true, "order-1", ""⟩)
      [⟨"BTC", "buy", 10, 100, "r"⟩, ⟨"ETH", "buy", 1000, 100, "r"⟩]).successfulOrders = 1 ∧
    (executeDecisions ⟨50, 50⟩ (fun _ _ => Except.ok ⟨true, "order-1", ""⟩)
      [⟨"BTC", "buy", 10, 100, "r"⟩, ⟨"ETH", "buy", 1000, 100, "r"⟩]).failedOrders = 1 := by
  have h := executor_aggregation ⟨50, 50⟩ (fun _ _ => Except.ok ⟨true, "order-1", ""⟩)
    [⟨"BTC", "buy", 10, 100, "r"⟩, ⟨"ETH", "buy", 1000, 100, "r"⟩]
    (by intro d hd; fin_cases hd <;> rfl)
  exact h.2.2 ⟨"BTC", "buy", 10, 100, "r"⟩ ⟨"ETH", "buy", 1000, 100, "r"⟩ rfl
    (by norm_num [decisionSucceeds, executeBuyOrder])
    (by norm_num [decisionSucceeds, executeBuyOrder])

/-- C9: per decision, if the snapshot cash balance is below the decision's
amount, the decision fails with the liquidity error (no order reaches the
venue and the result does not depend on the venue oracle), and the loop
still processes the remaining decisions; with sufficient balance a market
order of size amount / price is submitted, and the decision succeeds when
the venue accepts it. -/
theorem order_execution_liquidity_and_size (pf : Portfolio)
    (po : String → ℚ → Except String OrderResp) (d : InvestmentDecision) :
    (pf.USDCBalance < d.Amount →
      executeBuyOrder pf po d = Except.error "insufficient USDC balance") ∧
    (¬ pf.USDCBalance < d.Amount →
      ∀ resp, po (d.Asset ++ "-USDC") (d.Amount / d.Price) = Except.ok resp →
        resp.Success = true → executeBuyOrder pf po d = Except.ok ()) ∧
    (∀ rest, pf.USDCBalance < d.Amount → d.Action = "buy" →
      (∀ x ∈ rest, x.Action = "buy") →
      (executeDecisions pf po (d :: rest)).success = false ∧
      (executeDecisions pf po (d :: rest)).successfulOrders =
        (rest.filter (fun x => decisionSucceeds pf po x)).length ∧
      (executeDecisions pf po (d :: rest)).failedOrders =
        1 + (rest.filter (fun x => ! decisionSucceeds pf po x)).length) := by
  have hliq : pf.USDCBalance < d.Amount →
      executeBuyOrder pf po d = Except.error "insufficient USDC balance" := by
    intro h
    simp only [executeBuyOrder]
    rw [if_pos h]
  refine ⟨hliq, ?_, ?_⟩
  · intro h resp hresp hrs
    simp only [executeBuyOrder]
    rw [if_neg h]
    simp only [hresp]
    rw [if_pos hrs]
  · intro rest h hd hrest
    have hstep : execStep pf po initialExecState d =
        { initialExecState with success := false,
                                errMsg := "insufficient USDC balance",
                                failedOrders := initialExecState.failedOrders + 1 } := by
      simp only [execStep, hliq h]
      rw [if_pos hd]
    unfold executeDecisions
    rw [List.foldl_cons, hstep]
    obtain ⟨h1, h2, h3, h4⟩ := executeDecisions_foldl pf po rest
      { initialExecState with success := false,
                              errMsg := "insufficient USDC balance",
                              failedOrders := initialExecState.failedOrders + 1 } hrest
    refine ⟨?_, ?_, ?_⟩
    · rw [h1]
      simp
    · rw [h3]
      simp [initialExecState]
    · rw [h4]
      simp [initialExecState]

/-- Witness for C9: cash 5 against a 10-unit decision fails with the
liquidity error even though the venue would accept, and the one-decision
loop records exactly one failure and no success. -/
theorem order_execution_liquidity_and_size_witness :
    executeBuyOrder ⟨5, 5⟩ (fun _ _ => Except.ok ⟨true, "order-1", ""⟩)
      ⟨"BTC", "buy", 10, 100, "r"⟩ = Except.error "insufficient USDC balance" ∧
    (executeDecisions ⟨5, 5⟩ (fun _ _ => Except.ok ⟨true, "order-1", ""⟩)
      [⟨"BTC", "buy", 10, 100, "r"⟩]).success = false ∧
    (executeDecisions ⟨5, 5⟩ (fun _ _ => Except.ok ⟨true, "order-1", ""⟩)
      [⟨"BTC", "buy", 10, 100, "r"⟩]).successfulOrders = 0 ∧
    (executeDecisions ⟨5, 5⟩ (fun _ _ => Except.ok ⟨true, "order-1", ""⟩)
      [⟨"BTC", "buy", 10, 100, "r"⟩]).failedOrders = 1 := by
  have h := order_execution_liquidity_and_size ⟨5, 5⟩
    (fun _ _ => Except.ok ⟨true, "order-1", ""⟩) ⟨"BTC", "buy", 10, 100, "r"⟩
  have h3 := h.2.2 [] (by norm_num) rfl
    (fun x hx => absurd hx (List.not_mem_nil x))
  exact ⟨h.1 (by norm_num), h3.1, by simpa using h3.2.1, by simpa using h3.2.2⟩

/-- C10: when the planner yields an empty decision list, Execute returns a
plain successful result — Success true, no decisions, zero invested, empty
error string — rather than an error or a distinct degraded result code. -/
theorem execute_ok_on_empty_plan (pf : Portfolio) (fngIndex : FearGreedIndex)
    (cfg : BotConfig) (price : String → Except String ℚ)
    (po : String → ℚ → Except String OrderResp)
    (hplan : calculateBuyDecisions cfg pf fngIndex price = Except.ok []) :
    Execute (Except.ok pf) (Except.ok fngIndex) cfg price po =
      Except.ok { Success := true, Decisions := [], TotalInvested := 0,
                  TotalSold := 0, Error := "" } := by
  simp only [Execute, hplan]
  rfl

/-- Witness for C10: zero cash and a dead price feed give an empty plan,
and Execute reports plain success. -/
theorem execute_ok_on_empty_plan_witness :
    Execute (Except.ok ⟨0, 0⟩) (Except.ok ⟨50, "Neutral", 1⟩) ⟨80, 20, 100⟩
      (fun _ => Except.error "price lookup failed")
      (fun _ _ => Except.ok ⟨true, "order-1", ""⟩) =
      Except.ok { Success := true, Decisions := [], TotalInvested := 0,
                  TotalSold := 0, Error := "" } :=
  execute_ok_on_empty_plan ⟨0, 0⟩ ⟨50, "Neutral", 1⟩ ⟨80, 20, 100⟩
    (fun _ => Except.error "price lookup failed")
    (fun _ _ => Except.ok ⟨true, "order-1", ""⟩)
    (planner_empty_core ⟨80, 20, 100⟩ ⟨0, 0⟩ ⟨50, "Neutral", 1⟩
      (fun _ => Except.error "price lookup failed")
      (le_trans (min_le_right _ _) (by rw [zero_mul])))

end Moonshot
